import Mathlib

/-!
Verification development for the COMPASS recommendation engine
(`recommendation_engine.py`).

Shallow embedding conventions:
- Python strings are Lean `String`; `str.strip()` is `String.trim`
  (the corpora involved use only ASCII space and newline whitespace);
  `str.split(sep)` is `String.splitOn`.
- `float` quantities that the claims reason about (distances, the
  debt-to-income ratio, the sampling temperature) are embedded as `ℚ`;
  `f-string` fixed-point formatting is modelled by round-half-even on `ℚ`.
- Integer-typed profile columns (`age`, `income`, `credit_score`,
  `product_count`, `engagement_score`) are `ℤ`.
- The sentence-transformer encoder is an opaque parameter
  `embed : String → List ℚ` (one vector per text, deterministic).
- The FAISS library (`IndexFlatL2`, `read_index`, `write_index`,
  `Index.search`) is not part of the repository; those operations are
  modelled from the spec, as marked on each definition.
- Python exceptions and early returns are reified into explicit result
  types (`Except PyError`, `RecStep`).
-/

/-- Errors the embedded code can raise.  `fileNotFound` models Python
`FileNotFoundError` from `open`; `indexError` models `IndexError`
(for example `embeddings.shape[1]` on an empty array, or list indexing
out of range).  `configurationError` is the error class named by the
spec taxonomy; it exists here so claims about it can be stated, and the
embedded code never produces it. -/
inductive PyError where
  | fileNotFound
  | indexError
  | configurationError
deriving DecidableEq

/-- A customer row of `processed_customer_data.csv`, restricted to the
columns `recommendation_engine.py` reads. -/
structure CustomerProfile where
  customer_id : ℤ
  age : ℤ
  income : ℤ
  credit_score : ℤ
  debt_to_income_ratio : ℚ
  existing_products : String
  product_count : ℤ
  engagement_score : ℤ
  employment_status : String
deriving DecidableEq

/-- Python `f"{n:.0f}"` applied to the integer-valued `income` column:
the plain decimal rendering, no fractional part. -/
def fmtF0 (n : ℤ) : String := toString n

/-- Round a rational to the nearest integer, ties to the even integer
(the rounding used by fixed-point `f-string` formatting). -/
def roundHalfEven (q : ℚ) : ℤ :=
  let f : ℤ := ⌊q⌋
  let r : ℚ := q - f
  if r < 1/2 then f
  else if 1/2 < r then f + 1
  else if f % 2 = 0 then f else f + 1

/-- Left-pad the decimal rendering of a natural below 100 to two digits. -/
def pad2 (m : ℕ) : String :=
  if m < 10 then "0" ++ toString m else toString m

/-- Python `f"{q:.2f}"`, modelled on `ℚ`: round-half-even at two decimal
places, always exactly two digits after the point. -/
def fmtF2 (q : ℚ) : String :=
  let n : ℤ := roundHalfEven (q * 100)
  if n < 0 then
    "-" ++ toString ((-n) / 100) ++ "." ++ pad2 ((-n) % 100).toNat
  else
    toString (n / 100) ++ "." ++ pad2 (n % 100).toNat

/-- `create_customer_query` from `recommendation_engine.py`: renders the
fixed template over the profile row. -/
def create_customer_query (customer_data : CustomerProfile) : String :=
  "Customer profile: Age " ++ toString customer_data.age ++
  ". Income of $" ++ fmtF0 customer_data.income ++
  ". Credit score is " ++ toString customer_data.credit_score ++
  ". Debt-to-income ratio is " ++ fmtF2 customer_data.debt_to_income_ratio ++
  ". Holds " ++ toString customer_data.product_count ++
  " products, including: " ++ customer_data.existing_products ++
  ". Digital engagement score is " ++ toString customer_data.engagement_score ++
  ". Employment status: " ++ customer_data.employment_status ++ "."

/-- Modelled from the spec: a FAISS `IndexFlatL2` is an ordered
collection of vectors together with its dimensionality (the library
itself is external to the repository). -/
structure FaissIndex where
  d : ℕ
  vecs : List (List ℚ)
deriving DecidableEq

/-- Squared Euclidean distance between two vectors of equal length. -/
def sqDist (u v : List ℚ) : ℚ :=
  ((List.zip u v).map (fun p => (p.1 - p.2) ^ 2)).sum

/-- The retrieval order of `search` results: ascending by squared L2
distance, ties broken by ascending stored position. -/
def resLE (a b : ℕ × ℚ) : Bool :=
  decide (a.2 < b.2 ∨ (a.2 = b.2 ∧ a.1 ≤ b.1))

/-- Modelled from the spec: `Index.search` of FAISS (external to the
repository) returns the `(position, squared-L2-distance)` pairs of the
`k` nearest stored vectors, ascending by distance with ties broken by
ascending position, clamped to the number of stored vectors. -/
def FaissIndex.search (idx : FaissIndex) (q : List ℚ) (k : ℕ) : List (ℕ × ℚ) :=
  (((idx.vecs.enum.map (fun p => (p.1, sqDist q p.2))).mergeSort resLE).take k)

/-- Modelled from the spec: the binary artifact `faiss.write_index`
produces, holding the dimensionality, the vector count, and the
row-major flattened data. -/
structure IndexBlob where
  d : ℕ
  ntotal : ℕ
  data : List ℚ
deriving DecidableEq

/-- Modelled from the spec: `faiss.write_index` serializes the index,
preserving exact vector values and order. -/
def write_index (idx : FaissIndex) : IndexBlob :=
  ⟨idx.d, idx.vecs.length, idx.vecs.flatten⟩

/-- Split a flat data list back into `n` rows of `d` entries each. -/
def chunkRows : ℕ → ℕ → List ℚ → List (List ℚ)
  | 0, _, _ => []
  | n + 1, d, data => data.take d :: chunkRows n d (data.drop d)

/-- Modelled from the spec: `faiss.read_index` deserializes the binary
artifact back into an index. -/
def read_index (b : IndexBlob) : FaissIndex :=
  ⟨b.d, chunkRows b.ntotal b.d b.data⟩

/-- The literal delimiter `recommendation_engine.py` splits
`products.txt` on: a line of 32 dashes. -/
def kbDelimiter : String := "--------------------------------"

/-- Worker for `pySplit`: scan left to right, cutting at each
non-overlapping occurrence of the separator.  The fuel argument (the
remaining character count at the call site) only makes the recursion
structural; every call consumes at least one character, so the
zero-fuel branch is never reached from `pySplit`. -/
def splitGo (sep : List Char) : ℕ → List Char → List Char → List (List Char)
  | 0, cs, acc => [acc.reverse ++ cs]
  | fuel + 1, cs, acc =>
    match cs with
    | [] => [acc.reverse]
    | c :: rest =>
      if sep.isPrefixOf (c :: rest) then
        acc.reverse :: splitGo sep fuel (List.drop sep.length (c :: rest)) []
      else
        splitGo sep fuel rest (c :: acc)

/-- Python `s.split(sep)` for a non-empty separator: split on each
non-overlapping occurrence, left to right, keeping empty segments. -/
def pySplit (s sep : String) : List String :=
  (splitGo sep.data s.data.length s.data []).map (fun l => String.mk l)

/-- Python `s.strip()`: drop leading and trailing whitespace (the
corpora involved use only ASCII space, tab and newline, on which
`Char.isWhitespace` agrees with Python). -/
def pyStrip (s : String) : String :=
  String.mk (((s.data.dropWhile Char.isWhitespace).reverse.dropWhile
    Char.isWhitespace).reverse)

/-- The fresh-build filtering step of `build_or_load_index`:
`[text.strip() for text in product_texts if text.strip()]`. -/
def stripFilter (segs : List String) : List String :=
  (segs.map pyStrip).filter (fun s => s != "")

/-- The files `build_or_load_index` touches: the corpus
`products.txt` and the persisted index `faiss_index.bin`; `none` means
the file does not exist. -/
structure FS where
  corpusFile : Option String
  indexFile : Option IndexBlob
deriving DecidableEq

/-- `build_or_load_index` from `recommendation_engine.py`, over the
file-system state `fs` and the encoder `embed`.  On success it returns
the index, the `product_texts` list, and the resulting file-system
state (the fresh path persists the index it builds).  The load path
exists when `faiss_index.bin` does: it reads the index and splits the
corpus WITHOUT stripping or filtering; the fresh path strips and
filters, encodes, reads the dimensionality from the first embedding
(`embeddings.shape[1]`, an `IndexError` when there are none), builds
and persists. -/
def build_or_load_index (embed : String → List ℚ) (fs : FS) :
    Except PyError (FaissIndex × List String × FS) :=
  match fs.indexFile with
  | some blob =>
    match fs.corpusFile with
    | none => .error .fileNotFound
    | some content => .ok (read_index blob, pySplit content kbDelimiter, fs)
  | none =>
    match fs.corpusFile with
    | none => .error .fileNotFound
    | some content =>
      let product_texts := stripFilter (pySplit content kbDelimiter)
      let embeddings := product_texts.map embed
      match embeddings with
      | [] => .error .indexError
      | e0 :: _ =>
        let idx : FaissIndex := ⟨e0.length, embeddings⟩
        .ok (idx, product_texts,
             { fs with indexFile := some (write_index idx) })

/-- One message of a chat-completions request. -/
structure ChatMessage where
  role : String
  content : String
deriving DecidableEq

/-- The generation request `get_recommendation` dispatches to the
external service. -/
structure GenRequest where
  model : String
  messages : List ChatMessage
  temperature : ℚ
deriving DecidableEq

/-- The fixed role-instruction sentence of the prompt template. -/
def roleInstruction : String :=
  "You are an expert banking relationship manager. Your task is to recommend the single best product for a customer based on their profile and a list of relevant products."

/-- The prompt template of `get_recommendation` (the Python triple-quoted
f-string), as a function of the rendered query and the three retrieved
document texts. -/
def mkPrompt (query_text d0 d1 d2 : String) : String :=
  "\n    " ++ roleInstruction ++
  "\n\n    **Customer Profile:**\n    " ++ query_text ++
  "\n\n    **Relevant Products (from our knowledge base):**\n    1. " ++ d0 ++
  "\n    2. " ++ d1 ++
  "\n    3. " ++ d2 ++
  "\n\n    **Your Task:**\n    Based on all of this information, what is the single best product to recommend to this customer? \n    Provide a concise, one-paragraph justification explaining *why* it\x27s the best fit, referencing the customer\x27s profile.\n    \n    **Recommendation:**\n    "

/-- How a run of `get_recommendation` ends, up to the external call:
an early `return` of an error string, a raised exception, or the
dispatch of a generation request.  `raiseNotFound` is the exception the
spec taxonomy names; it exists so claims about it can be stated, and
the embedded code never produces it. -/
inductive RecStep where
  | errorReturn (msg : String)
  | raiseNotFound (id : ℤ)
  | raiseErr (e : PyError)
  | dispatch (req : GenRequest)
deriving DecidableEq

/-- `get_recommendation` from `recommendation_engine.py`, up to the
external generation call: look up the first row matching
`customer_id` (an early string return when there is none), render the
query, search the index with `k = 3`, gather the retrieved texts
(an index error when a position is out of range), print the header
line of each retrieved doc — `doc.splitlines()[0]` raises an index
error exactly when a retrieved text is the empty string, since Python
has `"".splitlines() = []` — and only then assemble the chat request
(model `llama3-8b-8192`, one user message, temperature 0.5). -/
def get_recommendation (embed : String → List ℚ) (customer_id : ℤ)
    (customer_df : List CustomerProfile) (index : FaissIndex)
    (product_texts : List String) : RecStep :=
  match customer_df.find? (fun c => c.customer_id == customer_id) with
  | none => .errorReturn "Error: Customer ID not found."
  | some customer_data =>
    let query_text := create_customer_query customer_data
    let res := index.search (embed query_text) 3
    if res.all (fun p => decide (p.1 < product_texts.length)) then
      let retrieved := res.map (fun p => product_texts.getD p.1 "")
      if retrieved.all (fun d => d != "") then
        match retrieved with
        | d0 :: d1 :: d2 :: _ =>
          .dispatch ⟨"llama3-8b-8192",
                     [⟨"user", mkPrompt query_text d0 d1 d2⟩], 1/2⟩
        | _ => .raiseErr .indexError
      else .raiseErr .indexError
    else .raiseErr .indexError

/-- The `String` value `get_recommendation` returns to its caller:
the early error message, or the content of the first choice of the
external response (`llm req`); `none` when an exception escapes.
Both normal outcomes travel on the same `String`-valued channel. -/
def returnedText (llm : GenRequest → String) (s : RecStep) : Option String :=
  match s with
  | .errorReturn m => some m
  | .dispatch req => some (llm req)
  | _ => none

/-- A degenerate but concrete encoder used for closed evaluations:
every text maps to the one-dimensional vector `[1]`. -/
def embedOne : String → List ℚ := fun _ => [1]

/-- Corpus exercising the load-path filtering defect: one product,
then a trailing delimiter line. -/
def corpusTrailing : String := "A\n" ++ kbDelimiter ++ "\n"

/-- The corpus of the spec example, with the literal 32-dash delimiter
of the code in place of the abbreviated delimiter of the spec text. -/
def corpusAB : String := "A " ++ kbDelimiter ++ " \n \n B"

/-- The `i`-th retrieved document text (retrieval order, closest first)
that `get_recommendation` puts into the prompt for customer row `c`. -/
def docAt (embed : String → List ℚ) (c : CustomerProfile) (idx : FaissIndex)
    (texts : List String) (i : ℕ) : String :=
  ((idx.search (embed (create_customer_query c)) 3).map
    (fun p => texts.getD p.1 "")).getD i ""

/-- The profile row of the spec end-to-end scenario, used as a
concrete input by witnesses. -/
def sampleProfile : CustomerProfile :=
  ⟨1, 30, 60000, 700, 3/10, "Checking Account", 1, 20, "Employed"⟩

theorem resLE_trans (a b c : ℕ × ℚ) (hab : resLE a b) (hbc : resLE b c) :
    resLE a c := by
  simp only [resLE, decide_eq_true_eq] at *
  rcases hab with h | ⟨h, h1⟩ <;> rcases hbc with h2 | ⟨h2, h3⟩
  · exact Or.inl (lt_trans h h2)
  · exact Or.inl (h2 ▸ h)
  · exact Or.inl (h ▸ h2)
  · exact Or.inr ⟨h.trans h2, h1.trans h3⟩

theorem resLE_total (a b : ℕ × ℚ) : resLE a b || resLE b a := by
  simp only [resLE, Bool.or_eq_true, decide_eq_true_eq]
  rcases lt_trichotomy a.2 b.2 with h | h | h
  · exact Or.inl (Or.inl h)
  · rcases Nat.le_total a.1 b.1 with h1 | h1
    · exact Or.inl (Or.inr ⟨h, h1⟩)
    · exact Or.inr (Or.inr ⟨h.symm, h1⟩)
  · exact Or.inr (Or.inl h)

theorem search_pairwise (idx : FaissIndex) (q : List ℚ) (k : ℕ) :
    (idx.search q k).Pairwise (fun a b => resLE a b = true) :=
  List.Pairwise.take (List.sorted_mergeSort resLE_trans resLE_total _)

theorem search_length (idx : FaissIndex) (q : List ℚ) (k : ℕ) :
    (idx.search q k).length = min k idx.vecs.length := by
  simp [FaissIndex.search]

theorem mem_search_pos_lt (idx : FaissIndex) (q : List ℚ) (k : ℕ)
    (p : ℕ × ℚ) (hp : p ∈ idx.search q k) : p.1 < idx.vecs.length := by
  have h1 := List.mem_of_mem_take hp
  rw [List.mem_mergeSort] at h1
  obtain ⟨⟨i, v⟩, hm, he⟩ := List.mem_map.mp h1
  have := List.fst_lt_of_mem_enum hm
  simp only [← he]
  simpa using this

/-- C1: for every stored index and query vector, `search(query, k)`
returns `(position, distance)` pairs sorted ascending by squared
Euclidean distance with ties broken by ascending position, and its
result count is `min k` (stored count) — in particular exactly the
stored count when `k` exceeds it, rather than failing. -/
theorem search_sorted_and_clamped (idx : FaissIndex) (q : List ℚ) (k : ℕ) :
    (idx.search q k).Pairwise (fun a b => resLE a b = true) ∧
    (idx.search q k).length = min k idx.vecs.length :=
  ⟨search_pairwise idx q k, search_length idx q k⟩

theorem chunkRows_flatten (d : ℕ) (vecs : List (List ℚ))
    (h : ∀ v ∈ vecs, v.length = d) :
    chunkRows vecs.length d vecs.flatten = vecs := by
  induction vecs with
  | nil => rfl
  | cons v vs ih =>
    have hv : v.length = d := h v (List.mem_cons_self v vs)
    simp only [List.length_cons, List.flatten_cons, chunkRows]
    rw [List.take_left' hv, List.drop_left' hv,
        ih (fun w hw => h w (List.mem_cons_of_mem v hw))]

theorem read_write_index (idx : FaissIndex)
    (h : ∀ v ∈ idx.vecs, v.length = idx.d) :
    read_index (write_index idx) = idx := by
  cases idx with
  | mk d vecs => simp [read_index, write_index, chunkRows_flatten d vecs h]

/-- C3: persisting a built index and loading it back yields an index
functionally indistinguishable from the original: every search returns
the same positions and the same distances. -/
theorem persist_load_search_eq (idx : FaissIndex) (q : List ℚ) (k : ℕ)
    (h : ∀ v ∈ idx.vecs, v.length = idx.d) :
    (read_index (write_index idx)).search q k = idx.search q k := by
  rw [read_write_index idx h]

/-- Witness for C3 at a concrete two-vector index. -/
theorem persist_load_search_eq_witness :
    (read_index (write_index ⟨1, [[1], [2]]⟩)).search [0] 2 =
      FaissIndex.search ⟨1, [[1], [2]]⟩ [0] 2 :=
  persist_load_search_eq ⟨1, [[1], [2]]⟩ [0] 2 (by decide)

/-- C2: the fresh-build path trims and filters the delimiter-separated
segments (the spec example yields exactly `A` and `B`), but the
load-existing path of the same function returns the raw, untrimmed and
unfiltered segments of the very same corpus — the two paths disagree,
so the loading step does not trim on both paths. -/
theorem load_path_skips_strip_filter :
    build_or_load_index embedOne ⟨some corpusAB, none⟩ =
      .ok (⟨1, [[1], [1]]⟩, ["A", "B"],
           ⟨some corpusAB, some ⟨1, 2, [1, 1]⟩⟩) ∧
    build_or_load_index embedOne ⟨some corpusAB, some ⟨1, 2, [1, 1]⟩⟩ =
      .ok (⟨1, [[1], [1]]⟩, ["A ", " \n \n B"],
           ⟨some corpusAB, some ⟨1, 2, [1, 1]⟩⟩) ∧
    (["A ", " \n \n B"] : List String) ≠ ["A", "B"] := by
  refine ⟨rfl, rfl, ?_⟩
  decide

/-- C4: after the engine itself persists an index built from the
filtered corpus (one document), a second startup loads that index (one
vector) next to the raw, unfiltered document list (two entries):
the size invariant `index size = number of documents` breaks on the
load-existing path. -/
theorem load_path_breaks_size_invariant :
    build_or_load_index embedOne ⟨some corpusTrailing, none⟩ =
      .ok (⟨1, [[1]]⟩, ["A"],
           ⟨some corpusTrailing, some ⟨1, 1, [1]⟩⟩) ∧
    build_or_load_index embedOne ⟨some corpusTrailing, some ⟨1, 1, [1]⟩⟩ =
      .ok (⟨1, [[1]]⟩, ["A\n", "\n"],
           ⟨some corpusTrailing, some ⟨1, 1, [1]⟩⟩) ∧
    ([[(1 : ℚ)]] : List (List ℚ)).length = 1 ∧
    (["A\n", "\n"] : List String).length = 2 := by
  exact ⟨rfl, rfl, rfl, rfl⟩

/-- C8 counterexample: with the corpus file present but empty (so empty
after trimming and filtering), the fresh-build path fails with an
index error at the embedding-shape access, not with a configuration
error. -/
theorem empty_corpus_fails_with_index_error :
    build_or_load_index embedOne ⟨some "", none⟩ = .error .indexError ∧
    PyError.indexError ≠ PyError.configurationError := by
  exact ⟨rfl, by decide⟩

/-- C8 as amended: a missing corpus file fails with the file-not-found
error on either path; a corpus that is empty after trimming and
filtering fails on the fresh-build path with an index error (the
embedding-shape access), and does not fail at all on the load-existing
path; no case produces a configuration error. -/
theorem corpus_failure_modes (embed : String → List ℚ) (fs : FS) :
    (fs.corpusFile = none → build_or_load_index embed fs = .error .fileNotFound) ∧
    (∀ content, fs.indexFile = none → fs.corpusFile = some content →
      stripFilter (pySplit content kbDelimiter) = [] →
      build_or_load_index embed fs = .error .indexError) ∧
    (∀ b content, fs.indexFile = some b → fs.corpusFile = some content →
      build_or_load_index embed fs =
        .ok (read_index b, pySplit content kbDelimiter, fs)) := by
  refine ⟨?_, ?_, ?_⟩
  · intro hc
    unfold build_or_load_index
    rw [hc]
    cases h : fs.indexFile <;> simp
  · intro content hi hc hempty
    unfold build_or_load_index
    rw [hi, hc]
    simp [hempty]
  · intro b content hi hc
    unfold build_or_load_index
    rw [hi, hc]

/-- Witness for C8-as-amended: the empty corpus on the fresh path. -/
theorem corpus_failure_modes_witness :
    build_or_load_index embedOne ⟨some "", none⟩ = .error .indexError :=
  (corpus_failure_modes embedOne ⟨some "", none⟩).2.1 "" rfl rfl rfl

/-- C9 counterexample: with the persisted index artifact present but
the corpus file missing, startup fails with a file-not-found error
instead of building a fresh index — the two artifacts are not treated
as present-together-or-rebuild. -/
theorem index_without_corpus_is_not_rebuilt :
    build_or_load_index embedOne ⟨none, some ⟨1, 1, [1]⟩⟩ =
      .error .fileNotFound ∧
    (build_or_load_index embedOne ⟨none, some ⟨1, 1, [1]⟩⟩).isOk = false := by
  exact ⟨rfl, rfl⟩

/-- C9 as amended: the persisted index is used whenever the index
artifact exists, regardless of the corpus: it is loaded next to
whatever corpus split is present, and startup fails with a
file-not-found error when the corpus file is missing; only when the
index artifact is absent is a fresh index built from the loader
output, persisted, and returned. -/
theorem build_or_load_policy (embed : String → List ℚ) (fs : FS) :
    (∀ b, fs.indexFile = some b → fs.corpusFile = none →
      build_or_load_index embed fs = .error .fileNotFound) ∧
    (∀ b content, fs.indexFile = some b → fs.corpusFile = some content →
      build_or_load_index embed fs =
        .ok (read_index b, pySplit content kbDelimiter, fs)) ∧
    (fs.indexFile = none → fs.corpusFile = none →
      build_or_load_index embed fs = .error .fileNotFound) ∧
    (∀ content, fs.indexFile = none → fs.corpusFile = some content →
      stripFilter (pySplit content kbDelimiter) ≠ [] →
      ∃ idx, build_or_load_index embed fs =
        .ok (idx, stripFilter (pySplit content kbDelimiter),
             { fs with indexFile := some (write_index idx) })) := by
  refine ⟨?_, ?_, ?_, ?_⟩
  · intro b hi hc
    unfold build_or_load_index
    rw [hi, hc]
  · intro b content hi hc
    unfold build_or_load_index
    rw [hi, hc]
  · intro hi hc
    unfold build_or_load_index
    rw [hi, hc]
  · intro content hi hc hne
    unfold build_or_load_index
    rw [hi, hc]
    cases htexts : stripFilter (pySplit content kbDelimiter) with
    | nil => exact absurd htexts hne
    | cons t ts =>
      refine ⟨⟨(embed t).length, (t :: ts).map embed⟩, ?_⟩
      simp [htexts]

/-- Witness for C9-as-amended: index artifact present, corpus missing. -/
theorem build_or_load_policy_witness :
    build_or_load_index embedOne ⟨none, some ⟨1, 1, [1]⟩⟩ =
      .error .fileNotFound :=
  (build_or_load_policy embedOne ⟨none, some ⟨1, 1, [1]⟩⟩).1 ⟨1, 1, [1]⟩ rfl rfl

/-- C5 counterexample: for identifier 42 absent from an (empty) profile
table, `get_recommendation` performs a plain early string return — it
is not the `NotFoundError` exception, and the message contains no digit,
so it does not name the identifier. -/
theorem absent_customer_no_notfound_error :
    get_recommendation embedOne 42 [] ⟨1, [[1], [2], [3]]⟩ ["a", "b", "c"] =
      .errorReturn "Error: Customer ID not found." ∧
    RecStep.errorReturn "Error: Customer ID not found." ≠
      RecStep.raiseNotFound 42 ∧
    ("Error: Customer ID not found.".data.all (fun ch => !ch.isDigit)) = true := by
  exact ⟨rfl, by decide, by decide⟩

/-- C5 as amended: for every customer identifier absent from the
profile table, `get_recommendation` returns early with the fixed string
`Error: Customer ID not found.` (no exception is raised and the
identifier is not interpolated into the message); in particular no
generation request is dispatched and no default recommendation is
substituted. -/
theorem absent_customer_early_return (embed : String → List ℚ) (cid : ℤ)
    (df : List CustomerProfile) (idx : FaissIndex) (texts : List String)
    (h : df.find? (fun c => c.customer_id == cid) = none) :
    get_recommendation embed cid df idx texts =
      .errorReturn "Error: Customer ID not found." := by
  unfold get_recommendation
  rw [h]

/-- Witness for C5-as-amended at identifier 7 and an empty table. -/
theorem absent_customer_early_return_witness :
    get_recommendation embedOne 7 [] ⟨1, []⟩ [] =
      .errorReturn "Error: Customer ID not found." :=
  absent_customer_early_return embedOne 7 [] ⟨1, []⟩ [] rfl

/-- C10: for an absent customer identifier the caller receives the
literal string `Error: Customer ID not found.` on the very same
`String`-valued return channel that carries a successful generation
text (`some (llm req)`), so only the string contents distinguish the
two. -/
theorem error_on_success_channel (embed : String → List ℚ)
    (llm : GenRequest → String) (cid : ℤ) (df : List CustomerProfile)
    (idx : FaissIndex) (texts : List String)
    (h : df.find? (fun c => c.customer_id == cid) = none) :
    returnedText llm (get_recommendation embed cid df idx texts) =
      some "Error: Customer ID not found." ∧
    ∀ req, returnedText llm (.dispatch req) = some (llm req) := by
  constructor
  · rw [absent_customer_early_return embed cid df idx texts h]
    rfl
  · intro req
    rfl

/-- Witness for C10 at identifier 7, an empty table and a constant
generation service. -/
theorem error_on_success_channel_witness :
    returnedText (fun _ => "ok")
        (get_recommendation embedOne 7 [] ⟨1, []⟩ []) =
      some "Error: Customer ID not found." :=
  (error_on_success_channel embedOne (fun _ => "ok") 7 [] ⟨1, []⟩ [] rfl).1

/-- C6: when the profile is found, at least three vectors are stored
(with the document list at least as long as the index), and every
stored document text is non-empty (so the header-printing loop does
not raise on `doc.splitlines()[0]`), the assembled generation request
is a single user-role message whose text contains the fixed
expert-advisor role instruction, then the rendered profile query, then
the three retrieved document texts verbatim in retrieval order. -/
theorem dispatch_prompt_structure (embed : String → List ℚ) (cid : ℤ)
    (df : List CustomerProfile) (idx : FaissIndex) (texts : List String)
    (c : CustomerProfile)
    (hfind : df.find? (fun r => r.customer_id == cid) = some c)
    (h3 : 3 ≤ idx.vecs.length) (hlen : idx.vecs.length ≤ texts.length)
    (hne : ∀ t ∈ texts, t ≠ "") :
    ∃ req : GenRequest,
      get_recommendation embed cid df idx texts = .dispatch req ∧
      req.model = "llama3-8b-8192" ∧ req.temperature = 1/2 ∧
      ∃ content, req.messages = [⟨"user", content⟩] ∧
        ∃ s0 s1 s2 s3 s4 s5,
          content = s0 ++ roleInstruction ++ s1 ++ create_customer_query c
            ++ s2 ++ docAt embed c idx texts 0
            ++ s3 ++ docAt embed c idx texts 1
            ++ s4 ++ docAt embed c idx texts 2 ++ s5 := by
  have hall : (idx.search (embed (create_customer_query c)) 3).all
      (fun p => decide (p.1 < texts.length)) = true := by
    rw [List.all_eq_true]
    intro p hp
    exact decide_eq_true
      (lt_of_lt_of_le (mem_search_pos_lt idx _ 3 p hp) hlen)
  have hall2 : ((idx.search (embed (create_customer_query c)) 3).map
      (fun p => texts.getD p.1 "")).all (fun d => d != "") = true := by
    rw [List.all_eq_true]
    intro d hd
    obtain ⟨p, hp, he⟩ := List.mem_map.mp hd
    have hlt : p.1 < texts.length :=
      lt_of_lt_of_le (mem_search_pos_lt idx _ 3 p hp) hlen
    have hmem : texts.getD p.1 "" ∈ texts := by
      rw [List.getD_eq_getElem?_getD, List.getElem?_eq_getElem hlt]
      exact List.getElem_mem hlt
    exact he ▸ bne_iff_ne.mpr (hne _ hmem)
  have hlen3 : (idx.search (embed (create_customer_query c)) 3).length = 3 := by
    rw [search_length]
    omega
  obtain ⟨a, b, c2, hshape⟩ := List.length_eq_three.mp hlen3
  rw [hshape] at hall hall2
  simp only [List.map_cons, List.map_nil] at hall2
  refine ⟨⟨"llama3-8b-8192",
      [⟨"user", mkPrompt (create_customer_query c) (texts.getD a.1 "")
        (texts.getD b.1 "") (texts.getD c2.1 "")⟩], 1/2⟩, ?_, rfl, rfl, ?_⟩
  · unfold get_recommendation
    rw [hfind]
    simp only [hshape, hall, hall2, List.map_cons, List.map_nil, if_true]
  · refine ⟨_, rfl, "\n    ",
      "\n\n    **Customer Profile:**\n    ",
      "\n\n    **Relevant Products (from our knowledge base):**\n    1. ",
      "\n    2. ", "\n    3. ",
      "\n\n    **Your Task:**\n    Based on all of this information, what is the single best product to recommend to this customer? \n    Provide a concise, one-paragraph justification explaining *why* it\x27s the best fit, referencing the customer\x27s profile.\n    \n    **Recommendation:**\n    ", ?_⟩
    simp only [docAt, hshape, List.map_cons, List.map_nil, List.getD, mkPrompt]
    rfl

theorem income_dollar_split (x : String) :
    ". Income of " ++ ("$" ++ x) = ". Income of $" ++ x := by
  rw [← String.append_assoc]
  rfl

theorem digitChar_isDigit : ∀ m : ℕ, m < 10 → (Nat.digitChar m).isDigit = true := by
  decide

theorem toDigitsCore_digits :
    ∀ (fuel n : ℕ) (ds : List Char), (∀ ch ∈ ds, ch.isDigit = true) →
      ∀ ch ∈ Nat.toDigitsCore 10 fuel n ds, ch.isDigit = true := by
  intro fuel
  induction fuel with
  | zero => intro n ds h ch hch; exact h ch hch
  | succ f ih =>
    intro n ds h ch hch
    rw [Nat.toDigitsCore] at hch
    have hd : (Nat.digitChar (n % 10)).isDigit = true :=
      digitChar_isDigit _ (Nat.mod_lt _ (by norm_num))
    by_cases h0 : n / 10 = 0
    · simp only [h0, if_true] at hch
      rcases List.mem_cons.mp hch with h1 | h1
      · exact h1 ▸ hd
      · exact h ch h1
    · simp only [h0, if_false] at hch
      refine ih (n / 10) _ ?_ ch hch
      intro ch2 hch2
      rcases List.mem_cons.mp hch2 with h1 | h1
      · exact h1 ▸ hd
      · exact h ch2 h1

theorem natRepr_digits (n : ℕ) : ∀ ch ∈ (Nat.repr n).data, ch.isDigit = true :=
  toDigitsCore_digits (n + 1) n [] (by simp)

theorem fmtF0_digit_or_minus (n : ℤ) :
    ∀ ch ∈ (fmtF0 n).data, ch.isDigit = true ∨ ch = '-' := by
  intro ch hch
  cases n with
  | ofNat m => exact Or.inl (natRepr_digits m ch hch)
  | negSucc m =>
    have : (fmtF0 (Int.negSucc m)).data = '-' :: (Nat.repr (m + 1)).data := rfl
    rw [this] at hch
    rcases List.mem_cons.mp hch with h1 | h1
    · exact Or.inr h1
    · exact Or.inl (natRepr_digits (m + 1) ch h1)

theorem pad2_length : ∀ m : ℕ, m < 100 → (pad2 m).length = 2 := by
  decide

theorem fmtF2_two_decimals (q : ℚ) :
    ∃ a b, fmtF2 q = a ++ "." ++ b ∧ b.length = 2 := by
  unfold fmtF2
  by_cases hn : roundHalfEven (q * 100) < 0
  · refine ⟨"-" ++ toString ((-roundHalfEven (q * 100)) / 100),
      pad2 ((-roundHalfEven (q * 100)) % 100).toNat, ?_, ?_⟩
    · simp [hn]
    · apply pad2_length
      have h1 : 0 ≤ (-roundHalfEven (q * 100)) % 100 :=
        Int.emod_nonneg _ (by norm_num)
      have h2 : (-roundHalfEven (q * 100)) % 100 < 100 :=
        Int.emod_lt_of_pos _ (by norm_num)
      omega
  · refine ⟨toString (roundHalfEven (q * 100) / 100),
      pad2 (roundHalfEven (q * 100) % 100).toNat, ?_, ?_⟩
    · simp [hn]
    · apply pad2_length
      have h1 : 0 ≤ roundHalfEven (q * 100) % 100 :=
        Int.emod_nonneg _ (by norm_num)
      have h2 : roundHalfEven (q * 100) % 100 < 100 :=
        Int.emod_lt_of_pos _ (by norm_num)
      omega

/-- C7: `create_customer_query` is a pure deterministic function of the
profile (equal profiles give identical strings), and the rendered
string embeds all eight profile fields: age, income (preceded by the
currency sign, rendered as a whole amount with no decimal point —
every character is a digit or a minus sign), credit score,
debt-to-income ratio (rendered with exactly two digits after the
decimal point), product count, held products, engagement score and
employment status. -/
theorem create_customer_query_deterministic_and_complete
    (p q : CustomerProfile) (h : p = q) :
    create_customer_query p = create_customer_query q ∧
    (∃ a b, create_customer_query p = a ++ toString p.age ++ b) ∧
    (∃ a b, create_customer_query p = a ++ ("$" ++ fmtF0 p.income) ++ b) ∧
    (∀ ch ∈ (fmtF0 p.income).data, ch.isDigit = true ∨ ch = '-') ∧
    (∃ a b, create_customer_query p = a ++ toString p.credit_score ++ b) ∧
    (∃ a b, create_customer_query p =
      a ++ fmtF2 p.debt_to_income_ratio ++ b) ∧
    (∃ a b, fmtF2 p.debt_to_income_ratio = a ++ "." ++ b ∧ b.length = 2) ∧
    (∃ a b, create_customer_query p = a ++ toString p.product_count ++ b) ∧
    (∃ a b, create_customer_query p = a ++ p.existing_products ++ b) ∧
    (∃ a b, create_customer_query p = a ++ toString p.engagement_score ++ b) ∧
    (∃ a b, create_customer_query p = a ++ p.employment_status ++ b) := by
  subst h
  refine And.intro rfl ?_
  refine And.intro ⟨"Customer profile: Age ",
      ". Income of " ++
      "$" ++
      fmtF0 p.income ++
      ". Credit score is " ++
      toString p.credit_score ++
      ". Debt-to-income ratio is " ++
      fmtF2 p.debt_to_income_ratio ++
      ". Holds " ++
      toString p.product_count ++
      " products, including: " ++
      p.existing_products ++
      ". Digital engagement score is " ++
      toString p.engagement_score ++
      ". Employment status: " ++
      p.employment_status ++
      ".", by simp [create_customer_query, String.append_assoc]⟩ ?_
  refine And.intro ⟨"Customer profile: Age " ++
      toString p.age ++
      ". Income of ",
      ". Credit score is " ++
      toString p.credit_score ++
      ". Debt-to-income ratio is " ++
      fmtF2 p.debt_to_income_ratio ++
      ". Holds " ++
      toString p.product_count ++
      " products, including: " ++
      p.existing_products ++
      ". Digital engagement score is " ++
      toString p.engagement_score ++
      ". Employment status: " ++
      p.employment_status ++
      ".", by simp [create_customer_query, String.append_assoc, income_dollar_split]⟩ ?_
  refine And.intro (fmtF0_digit_or_minus p.income) ?_
  refine And.intro ⟨"Customer profile: Age " ++
      toString p.age ++
      ". Income of " ++
      "$" ++
      fmtF0 p.income ++
      ". Credit score is ",
      ". Debt-to-income ratio is " ++
      fmtF2 p.debt_to_income_ratio ++
      ". Holds " ++
      toString p.product_count ++
      " products, including: " ++
      p.existing_products ++
      ". Digital engagement score is " ++
      toString p.engagement_score ++
      ". Employment status: " ++
      p.employment_status ++
      ".", by simp [create_customer_query, String.append_assoc]⟩ ?_
  refine And.intro ⟨"Customer profile: Age " ++
      toString p.age ++
      ". Income of " ++
      "$" ++
      fmtF0 p.income ++
      ". Credit score is " ++
      toString p.credit_score ++
      ". Debt-to-income ratio is ",
      ". Holds " ++
      toString p.product_count ++
      " products, including: " ++
      p.existing_products ++
      ". Digital engagement score is " ++
      toString p.engagement_score ++
      ". Employment status: " ++
      p.employment_status ++
      ".", by simp [create_customer_query, String.append_assoc]⟩ ?_
  refine And.intro (fmtF2_two_decimals p.debt_to_income_ratio) ?_
  refine And.intro ⟨"Customer profile: Age " ++
      toString p.age ++
      ". Income of " ++
      "$" ++
      fmtF0 p.income ++
      ". Credit score is " ++
      toString p.credit_score ++
      ". Debt-to-income ratio is " ++
      fmtF2 p.debt_to_income_ratio ++
      ". Holds ",
      " products, including: " ++
      p.existing_products ++
      ". Digital engagement score is " ++
      toString p.engagement_score ++
      ". Employment status: " ++
      p.employment_status ++
      ".", by simp [create_customer_query, String.append_assoc]⟩ ?_
  refine And.intro ⟨"Customer profile: Age " ++
      toString p.age ++
      ". Income of " ++
      "$" ++
      fmtF0 p.income ++
      ". Credit score is " ++
      toString p.credit_score ++
      ". Debt-to-income ratio is " ++
      fmtF2 p.debt_to_income_ratio ++
      ". Holds " ++
      toString p.product_count ++
      " products, including: ",
      ". Digital engagement score is " ++
      toString p.engagement_score ++
      ". Employment status: " ++
      p.employment_status ++
      ".", by simp [create_customer_query, String.append_assoc]⟩ ?_
  refine And.intro ⟨"Customer profile: Age " ++
      toString p.age ++
      ". Income of " ++
      "$" ++
      fmtF0 p.income ++
      ". Credit score is " ++
      toString p.credit_score ++
      ". Debt-to-income ratio is " ++
      fmtF2 p.debt_to_income_ratio ++
      ". Holds " ++
      toString p.product_count ++
      " products, including: " ++
      p.existing_products ++
      ". Digital engagement score is ",
      ". Employment status: " ++
      p.employment_status ++
      ".", by simp [create_customer_query, String.append_assoc]⟩ ?_
  exact ⟨"Customer profile: Age " ++
      toString p.age ++
      ". Income of " ++
      "$" ++
      fmtF0 p.income ++
      ". Credit score is " ++
      toString p.credit_score ++
      ". Debt-to-income ratio is " ++
      fmtF2 p.debt_to_income_ratio ++
      ". Holds " ++
      toString p.product_count ++
      " products, including: " ++
      p.existing_products ++
      ". Digital engagement score is " ++
      toString p.engagement_score ++
      ". Employment status: ",
      ".", by simp [create_customer_query, String.append_assoc]⟩

/-- Witness for C7 at the profile of the spec end-to-end scenario. -/
theorem create_customer_query_witness :
    create_customer_query ⟨1, 30, 60000, 700, 3/10, "Checking Account", 1, 20,
        "Employed"⟩ =
      create_customer_query ⟨1, 30, 60000, 700, 3/10, "Checking Account", 1,
        20, "Employed"⟩ ∧
    (∃ a b, create_customer_query ⟨1, 30, 60000, 700, 3/10,
        "Checking Account", 1, 20, "Employed"⟩ = a ++ toString (30 : ℤ) ++ b) := by
  have h := create_customer_query_deterministic_and_complete
    ⟨1, 30, 60000, 700, 3/10, "Checking Account", 1, 20, "Employed"⟩
    ⟨1, 30, 60000, 700, 3/10, "Checking Account", 1, 20, "Employed"⟩ rfl
  exact ⟨h.1, h.2.1⟩

/-- Witness for C6 at a one-row table and a three-vector index. -/
theorem dispatch_prompt_structure_witness :
    ∃ req : GenRequest,
      get_recommendation embedOne 1 [sampleProfile] ⟨1, [[0], [0], [0]]⟩
          ["P0", "P1", "P2"] = .dispatch req ∧
      req.model = "llama3-8b-8192" ∧ req.temperature = 1/2 ∧
      ∃ content, req.messages = [⟨"user", content⟩] ∧
        ∃ s0 s1 s2 s3 s4 s5,
          content = s0 ++ roleInstruction ++ s1 ++
            create_customer_query sampleProfile ++ s2 ++
            docAt embedOne sampleProfile ⟨1, [[0], [0], [0]]⟩
              ["P0", "P1", "P2"] 0 ++ s3 ++
            docAt embedOne sampleProfile ⟨1, [[0], [0], [0]]⟩
              ["P0", "P1", "P2"] 1 ++ s4 ++
            docAt embedOne sampleProfile ⟨1, [[0], [0], [0]]⟩
              ["P0", "P1", "P2"] 2 ++ s5 :=
  dispatch_prompt_structure embedOne 1 [sampleProfile] ⟨1, [[0], [0], [0]]⟩
    ["P0", "P1", "P2"] sampleProfile (by rfl) (by decide) (by decide) (by decide)
